import Mathlib

/-!
# Occupancy-section row derivation and state container

Shallow embedding of the two source files of the repository:

* `src/ulmaniai/occupancyUtils.ts` — the pure row-derivation function
  `autoSetUsageStatus` together with its data types;
* `src/ulmaniai/useOccupancySection.ts` — the stateful container
  (`useOccupancySection`) built on top of it.

Modelling conventions:

* TypeScript `number` arguments are modelled as `Int` (all call sites pass
  integers); JavaScript `Math.max` is `max` on `Int`, and a `for` loop
  `for (i = 0; i < n; i += 1)` over an `Int` bound `n` runs `n.toNat` times.
* The optional field `businessRegistration?: string` is an `Option String`
  (`none` = field absent).
* `existingRows[i]` is `l[i]?` (`getElem?`); the JavaScript idiom `x?.f || ''` is
  `((x.map f).getD "")` (an absent element or an absent/empty field yields
  the empty string, any other string is passed through unchanged).
* React `useState` updates are modelled by explicit state passing: every
  handler maps a container state to an `Option` of a new state, where
  `none` models a thrown `TypeError` (reading a property of `undefined`,
  the only way any of these handlers can throw).
-/

/-- The occupancy status enumeration of `occupancyUtils.ts`
(`'residence' | 'rent' | 'both' | 'self-use'`). -/
inductive OccupancyStatus where
  | residence
  | rent
  | both
  | selfUse
deriving DecidableEq, Repr

/-- The string value of an `OccupancyStatus`, as it appears in the
TypeScript union type. -/
def OccupancyStatus.str : OccupancyStatus → String
  | .residence => "residence"
  | .rent => "rent"
  | .both => "both"
  | .selfUse => "self-use"

/-- One table row (`LeaseRow` in `occupancyUtils.ts`).
`businessRegistration` is optional in the source (`businessRegistration?:
string`), hence an `Option`. -/
structure LeaseRow where
  id : String
  usage : String
  deposit : String
  rent : String
  businessRegistration : Option String := none
deriving DecidableEq, Repr

/-- Aggregate for one occupancy status (`SectionInfo` in
`occupancyUtils.ts`). -/
structure SectionInfo where
  totalCount : String
  tenantCount : String
  leaseRows : List LeaseRow
deriving DecidableEq, Repr

/-- Function `autoSetUsageStatus` of `occupancyUtils.ts` (lines 52–136), translated
clause by clause.

* `residence`/`self-use` branch (lines 61–77): `max(totalCount,
  tenantCount, 1)` rows, all labelled `'거주 중'` (residential) or
  `'직접사용'` (commercial), empty deposit/rent, and — when commercial —
  an empty `businessRegistration` field.
* `rent` branch (lines 81–99): `max(totalCount, tenantCount, 1)` rows;
  row `i` is `'임대'` when `i < tenantCount` and `'공실'` otherwise;
  deposit/rent are `existingRow?.deposit || ''` for rented rows and `''`
  for vacant ones; no `businessRegistration` field is ever produced.
* `both` branch (lines 103–132): `max(totalCount - 1, tenantCount)`
  rent-block rows built like the `rent` branch except that, when
  commercial, each carries `businessRegistration: existingRow?.
  businessRegistration || ''`; then one final row with id
  `String(rentCount + 1)`, label `'직접사용'`/`'거주'`, empty
  deposit/rent and, when commercial, an empty `businessRegistration`.
* fallback (line 135): any unhandled status returns `existingRows`
  (unreachable for the closed four-value enumeration). -/
def autoSetUsageStatus (totalCount tenantCount : Int)
    (existingRows : List LeaseRow) (status : OccupancyStatus)
    (isCommercial : Bool) : List LeaseRow :=
  if status = .residence ∨ status = .selfUse then
    let rowCount : Int := max totalCount (max tenantCount 1)
    (List.range rowCount.toNat).map fun i =>
      { id := toString (i + 1)
        usage := if isCommercial then "직접사용" else "거주 중"
        deposit := ""
        rent := ""
        businessRegistration := if isCommercial then some "" else none }
  else if status = .rent then
    let rowCount : Int := max totalCount (max tenantCount 1)
    (List.range rowCount.toNat).map fun (i : Nat) =>
      let existingRow := existingRows[i]?
      let usage := if (i : Int) < tenantCount then "임대" else "공실"
      { id := toString (i + 1)
        usage := usage
        deposit := if usage = "임대" then
            ((existingRow.map LeaseRow.deposit).getD "") else ""
        rent := if usage = "임대" then
            ((existingRow.map LeaseRow.rent).getD "") else ""
        businessRegistration := none }
  else if status = .both then
    let rentCount : Int := max (totalCount - 1) tenantCount
    let rentRows := (List.range rentCount.toNat).map fun (i : Nat) =>
      let existingRow := existingRows[i]?
      let usage := if (i : Int) < tenantCount then "임대" else "공실"
      { id := toString (i + 1)
        usage := usage
        deposit := if usage = "임대" then
            ((existingRow.map LeaseRow.deposit).getD "") else ""
        rent := if usage = "임대" then
            ((existingRow.map LeaseRow.rent).getD "") else ""
        businessRegistration := if isCommercial then
            some ((existingRow.bind LeaseRow.businessRegistration).getD "")
          else none }
    rentRows ++
      [{ id := toString (rentCount + 1)
         usage := if isCommercial then "직접사용" else "거주"
         deposit := ""
         rent := ""
         businessRegistration := if isCommercial then some "" else none }]
  else existingRows

/-- The section category of `useOccupancySection.ts`
(`type: 'residential' | 'commercial'`). -/
inductive SectionType where
  | residential
  | commercial
deriving DecidableEq, Repr

/-- Type `InfoRecord` of `useOccupancySection.ts`: at runtime,
`Object.fromEntries` over the three statuses of the section category, so
the fourth status has no entry (`undefined`, modelled as `none`) even
though the TypeScript type claims all four keys. -/
structure InfoRecord where
  residence : Option SectionInfo := none
  rent : Option SectionInfo := none
  both : Option SectionInfo := none
  selfUse : Option SectionInfo := none
deriving DecidableEq, Repr

/-- Key lookup `info[status]`; `none` is JavaScript `undefined`. -/
def InfoRecord.get (r : InfoRecord) : OccupancyStatus → Option SectionInfo
  | .residence => r.residence
  | .rent => r.rent
  | .both => r.both
  | .selfUse => r.selfUse

/-- The spread update `{ ...prev, [status]: v }`. -/
def InfoRecord.set (r : InfoRecord) :
    OccupancyStatus → SectionInfo → InfoRecord
  | .residence, v => { r with residence := some v }
  | .rent, v => { r with rent := some v }
  | .both, v => { r with both := some v }
  | .selfUse, v => { r with selfUse := some v }

/-- The three statuses a section category supports
(`createInitialInfoState`, lines 30–32). -/
def applicableStatuses (type : SectionType) : List OccupancyStatus :=
  match type with
  | .commercial => [.selfUse, .rent, .both]
  | .residential => [.residence, .rent, .both]

/-- The default `SectionInfo` built for one status by
`createInitialInfoState` (lines 36–46): counts `"1"`/`"0"` and a single
row whose `usage` is the status string itself. -/
def defaultSectionInfo (status : OccupancyStatus) : SectionInfo :=
  { totalCount := "1"
    tenantCount := "0"
    leaseRows := [{ id := "1", usage := status.str, deposit := "",
                    rent := "", businessRegistration := none }] }

/-- Function `createInitialInfoState` of `useOccupancySection.ts` (lines 29–49). -/
def createInitialInfoState (type : SectionType) : InfoRecord :=
  match type with
  | .commercial =>
      { selfUse := some (defaultSectionInfo .selfUse)
        rent := some (defaultSectionInfo .rent)
        both := some (defaultSectionInfo .both)
        residence := none }
  | .residential =>
      { residence := some (defaultSectionInfo .residence)
        rent := some (defaultSectionInfo .rent)
        both := some (defaultSectionInfo .both)
        selfUse := none }

/-- JS `value.replace(/[^0-9]/g, '')` — keep only decimal digits. -/
def stripNonDigits (s : String) : String :=
  String.mk (s.toList.filter Char.isDigit)

/-- Decimal value of a digit-only string (the shape every string reaching
`Number` in these handlers has: all stored counts pass through
`stripNonDigits`). -/
def digitsToNat (s : String) : Nat :=
  s.toList.foldl (fun n c => n * 10 + (c.toNat - 48)) 0

/-- JavaScript `Number(s)` on the strings these handlers produce:
`Number('') = 0`, a digit-only string parses to its decimal value, and
anything containing a non-digit is `NaN` (`none`). -/
def jsNumber (s : String) : Option Int :=
  if s.toList.all Char.isDigit then some (digitsToNat s) else none

/-- JavaScript `Number(s) || 0`: `NaN` (and `0` itself) collapse to 0. -/
def jsNumberOr0 (s : String) : Int :=
  (jsNumber s).getD 0

/-- The state held by one `useOccupancySection` instance: the fixed
section category, the active status (`useState(initialStatus)`) and the
per-status record (`useState(createInitialInfoState(type))`). -/
structure ContainerState where
  type : SectionType
  status : OccupancyStatus
  info : InfoRecord
deriving DecidableEq, Repr

/-- The state of a freshly constructed `useOccupancySection({type,
initialStatus})` hook. -/
def initContainer (type : SectionType)
    (initialStatus : OccupancyStatus) : ContainerState :=
  { type := type, status := initialStatus,
    info := createInitialInfoState type }

/-- Handler `handleStatusChange` (lines 94–112). Reading `info[newStatus]` when
that entry is absent makes `currentInfo.totalCount` throw a `TypeError`
(`none`). Otherwise the target status's rows are re-derived with
`Math.max(Number(totalCount) || 0, 1)` and `Number(tenantCount) || 0`,
the active status becomes `newStatus`, and only that entry is replaced. -/
def handleStatusChange (s : ContainerState)
    (newStatus : OccupancyStatus) : Option ContainerState :=
  (s.info.get newStatus).map fun currentInfo =>
    let newRows := autoSetUsageStatus
      (max (jsNumberOr0 currentInfo.totalCount) 1)
      (jsNumberOr0 currentInfo.tenantCount)
      currentInfo.leaseRows newStatus (s.type = .commercial)
    { s with
      status := newStatus
      info := s.info.set newStatus
        { currentInfo with leaseRows := newRows } }

/-- Handler `handleTotalCountChange` (lines 118–139): sanitize the input to
digits, floor the derived row count at 1, re-derive the active status's
rows, and store the sanitized string together with the new rows. -/
def handleTotalCountChange (s : ContainerState)
    (value : String) : Option ContainerState :=
  let onlyNumbers := stripNonDigits value
  let newRowCount := max (jsNumberOr0 onlyNumbers) 1
  (s.info.get s.status).map fun currentInfo =>
    let newRows := autoSetUsageStatus newRowCount
      (jsNumberOr0 currentInfo.tenantCount)
      currentInfo.leaseRows s.status (s.type = .commercial)
    { s with
      info := s.info.set s.status
        { currentInfo with totalCount := onlyNumbers,
                           leaseRows := newRows } }

/-- Handler `handleTotalCountBlur` (lines 145–158): if the stored total-count
string is empty or `Number` of it is `< 1` (a comparison that is false
for `NaN`), reset it to `"1"`; otherwise leave the state untouched. -/
def handleTotalCountBlur (s : ContainerState) : Option ContainerState :=
  (s.info.get s.status).map fun currentInfo =>
    if currentInfo.totalCount.isEmpty ||
        ((jsNumber currentInfo.totalCount).elim false
          fun n => decide (n < 1)) then
      { s with
        info := s.info.set s.status
          { currentInfo with totalCount := "1" } }
    else s

/-- Handler `handleTenantCountChange` (lines 164–185): sanitize the input to
digits, re-derive the active status's rows with
`Number(totalCount) || 0` (no flooring here) and the new tenant count,
and store the sanitized string together with the new rows. -/
def handleTenantCountChange (s : ContainerState)
    (value : String) : Option ContainerState :=
  let onlyNumbers := stripNonDigits value
  let newTenantCount := jsNumberOr0 onlyNumbers
  (s.info.get s.status).map fun currentInfo =>
    let newRows := autoSetUsageStatus
      (jsNumberOr0 currentInfo.totalCount) newTenantCount
      currentInfo.leaseRows s.status (s.type = .commercial)
    { s with
      info := s.info.set s.status
        { currentInfo with tenantCount := onlyNumbers,
                           leaseRows := newRows } }

/-- Handler `handleTenantCountBlur` (lines 191–203): an empty stored tenant-count
string is reset to `"0"`; anything else is left untouched. -/
def handleTenantCountBlur (s : ContainerState) : Option ContainerState :=
  (s.info.get s.status).map fun currentInfo =>
    if currentInfo.tenantCount.isEmpty then
      { s with
        info := s.info.set s.status
          { currentInfo with tenantCount := "0" } }
    else s

/-- Handler `handleRowUsageChange` (lines 209–225): on the active status's rows,
the rows whose `id` equals `rowId` get the new label, and their
deposit/rent are kept only when the new label is `'임대'`; every other
row is returned as is. -/
def handleRowUsageChange (s : ContainerState)
    (rowId newUsage : String) : Option ContainerState :=
  (s.info.get s.status).map fun currentInfo =>
    { s with
      info := s.info.set s.status
        { currentInfo with leaseRows := currentInfo.leaseRows.map fun r =>
            if r.id = rowId then
              { r with usage := newUsage
                       deposit := if newUsage = "임대" then r.deposit else ""
                       rent := if newUsage = "임대" then r.rent else "" }
            else r } }

/-- Handler `handleRowDepositChange` (lines 230–242). -/
def handleRowDepositChange (s : ContainerState)
    (rowId value : String) : Option ContainerState :=
  let onlyNumbers := stripNonDigits value
  (s.info.get s.status).map fun currentInfo =>
    { s with
      info := s.info.set s.status
        { currentInfo with leaseRows := currentInfo.leaseRows.map fun r =>
            if r.id = rowId then { r with deposit := onlyNumbers } else r } }

/-- Handler `handleRowRentChange` (lines 247–259). -/
def handleRowRentChange (s : ContainerState)
    (rowId value : String) : Option ContainerState :=
  let onlyNumbers := stripNonDigits value
  (s.info.get s.status).map fun currentInfo =>
    { s with
      info := s.info.set s.status
        { currentInfo with leaseRows := currentInfo.leaseRows.map fun r =>
            if r.id = rowId then { r with rent := onlyNumbers } else r } }

/-- Handler `handleRowBusinessRegistrationChange` (lines 264–274): the spread
`{ ...r, businessRegistration: value }` sets the field unconditionally on
the rows whose `id` equals `rowId` — also when the field was absent and
also on residential sections. -/
def handleRowBusinessRegistrationChange (s : ContainerState)
    (rowId value : String) : Option ContainerState :=
  (s.info.get s.status).map fun currentInfo =>
    { s with
      info := s.info.set s.status
        { currentInfo with leaseRows := currentInfo.leaseRows.map fun r =>
            if r.id = rowId then
              { r with businessRegistration := some value }
            else r } }

/-- The nine exposed mutators as one inductive alphabet, used to speak
about arbitrary interaction sequences with the container. -/
inductive Mutation where
  | changeStatus (newStatus : OccupancyStatus)
  | changeTotalCount (value : String)
  | commitTotalCount
  | changeTenantCount (value : String)
  | commitTenantCount
  | changeRowUsage (rowId newUsage : String)
  | changeRowDeposit (rowId value : String)
  | changeRowRent (rowId value : String)
  | changeRowBusinessRegistration (rowId value : String)
deriving DecidableEq, Repr

/-- Dispatch one mutation to the corresponding handler. -/
def applyMutation (s : ContainerState) : Mutation → Option ContainerState
  | .changeStatus newStatus => handleStatusChange s newStatus
  | .changeTotalCount v => handleTotalCountChange s v
  | .commitTotalCount => handleTotalCountBlur s
  | .changeTenantCount v => handleTenantCountChange s v
  | .commitTenantCount => handleTenantCountBlur s
  | .changeRowUsage i u => handleRowUsageChange s i u
  | .changeRowDeposit i v => handleRowDepositChange s i v
  | .changeRowRent i v => handleRowRentChange s i v
  | .changeRowBusinessRegistration i v =>
      handleRowBusinessRegistrationChange s i v

/-- The status whose `SectionInfo` entry a mutation addresses: the target
status for `changeStatus`, the active status for everything else. -/
def addressedStatus (s : ContainerState) : Mutation → OccupancyStatus
  | .changeStatus newStatus => newStatus
  | _ => s.status

/-- States reachable from a well-constructed hook instance (the
`initialStatus` must be valid for the category, §4.2 of the spec) by any
sequence of successful mutator invocations. -/
inductive Reachable (type : SectionType) : ContainerState → Prop where
  | init (initialStatus : OccupancyStatus)
      (h : initialStatus ∈ applicableStatuses type) :
      Reachable type (initContainer type initialStatus)
  | step {s s' : ContainerState} (m : Mutation) (hs : Reachable type s)
      (h : applyMutation s m = some s') : Reachable type s'


/-- The structural invariant every reachable container state satisfies:
the category is fixed, the active status is applicable to it, and the
record has an entry exactly for the applicable statuses. -/
def ContainerInvariant (type : SectionType) (s : ContainerState) : Prop :=
  s.type = type ∧
  s.status ∈ applicableStatuses type ∧
  ∀ st : OccupancyStatus,
    (s.info.get st).isSome = true ↔ st ∈ applicableStatuses type

/-! ## Helper lemmas and the documentation examples of the source -/

example :
    autoSetUsageStatus 3 2 [] .rent false =
      [{ id := "1", usage := "임대", deposit := "", rent := "" },
       { id := "2", usage := "임대", deposit := "", rent := "" },
       { id := "3", usage := "공실", deposit := "", rent := "" }] := by
  decide

example :
    autoSetUsageStatus 3 1 [] .both false =
      [{ id := "1", usage := "임대", deposit := "", rent := "" },
       { id := "2", usage := "공실", deposit := "", rent := "" },
       { id := "3", usage := "거주", deposit := "", rent := "" }] := by
  decide

theorem get_map_range {α : Type} (f : Nat → α) {n i : Nat}
    (hi : i < ((List.range n).map f).length) :
    ((List.range n).map f).get ⟨i, hi⟩ = f i := by
  simp

theorem max_max_one_nonneg (a b : Int) : (0 : Int) ≤ max a (max b 1) :=
  le_trans zero_le_one (le_max_of_le_right (le_max_right _ _))

/-! ## Claims about the row-derivation function -/

/-- C1. For status `'rent'`, `autoSetUsageStatus` returns exactly
`max(totalCount, tenantCount, 1)` rows; for every 0-based index `i`, the
row's label is the rented label `'임대'` iff `i < tenantCount`; a rented
row's deposit and rent are copied positionally from `existingRows[i]`
when that element exists and are the empty string otherwise; and a vacant
row's deposit and rent are the empty string regardless of the content of
`existingRows[i]`. -/
theorem autoSetUsageStatus_rent_characterization
    (totalCount tenantCount : Int) (existingRows : List LeaseRow)
    (isCommercial : Bool) :
    (((autoSetUsageStatus totalCount tenantCount existingRows .rent
        isCommercial).length : Int)
      = max totalCount (max tenantCount 1)) ∧
    ∀ (i : Nat) (hi : i < (autoSetUsageStatus totalCount tenantCount
        existingRows .rent isCommercial).length),
      (((autoSetUsageStatus totalCount tenantCount existingRows .rent
          isCommercial).get ⟨i, hi⟩).usage = "임대"
        ↔ (i : Int) < tenantCount) ∧
      ((i : Int) < tenantCount →
        ((autoSetUsageStatus totalCount tenantCount existingRows .rent
            isCommercial).get ⟨i, hi⟩).deposit
          = ((existingRows[i]?.map LeaseRow.deposit).getD "") ∧
        ((autoSetUsageStatus totalCount tenantCount existingRows .rent
            isCommercial).get ⟨i, hi⟩).rent
          = ((existingRows[i]?.map LeaseRow.rent).getD "")) ∧
      (tenantCount ≤ (i : Int) →
        ((autoSetUsageStatus totalCount tenantCount existingRows .rent
            isCommercial).get ⟨i, hi⟩).deposit = "" ∧
        ((autoSetUsageStatus totalCount tenantCount existingRows .rent
            isCommercial).get ⟨i, hi⟩).rent = "") := by
  constructor
  · show ((((List.range (max totalCount (max tenantCount 1)).toNat).map
        (fun (i : Nat) =>
          let existingRow := existingRows[i]?
          let usage := if (i : Int) < tenantCount then "임대" else "공실"
          ({ id := toString (i + 1)
             usage := usage
             deposit := if usage = "임대" then
                 ((existingRow.map LeaseRow.deposit).getD "") else ""
             rent := if usage = "임대" then
                 ((existingRow.map LeaseRow.rent).getD "") else ""
             businessRegistration := none } : LeaseRow))).length : Nat) : Int)
      = max totalCount (max tenantCount 1)
    rw [List.length_map, List.length_range,
      Int.toNat_of_nonneg (max_max_one_nonneg _ _)]
  · intro i hi
    have key : (autoSetUsageStatus totalCount tenantCount existingRows .rent
        isCommercial).get ⟨i, hi⟩
        = (let existingRow := existingRows[i]?
           let usage := if (i : Int) < tenantCount then "임대" else "공실"
           ({ id := toString (i + 1)
              usage := usage
              deposit := if usage = "임대" then
                  ((existingRow.map LeaseRow.deposit).getD "") else ""
              rent := if usage = "임대" then
                  ((existingRow.map LeaseRow.rent).getD "") else ""
              businessRegistration := none } : LeaseRow)) :=
      get_map_range _ hi
    rw [key]
    by_cases hlt : (i : Int) < tenantCount
    · refine ⟨by simp [hlt], fun _ => by simp [hlt], fun hge => ?_⟩
      exact absurd hlt (not_lt.mpr hge)
    · refine ⟨by simp [hlt], fun h => absurd h hlt, fun _ => by simp [hlt]⟩

/-- Witness for C1 at `autoSetUsageStatus(3, 2, [], 'rent', false)`,
index 0: the first row is rented. -/
theorem autoSetUsageStatus_rent_characterization_witness :
    ((autoSetUsageStatus 3 2 [] .rent false).get ⟨0, by decide⟩).usage
      = "임대" :=
  ((autoSetUsageStatus_rent_characterization 3 2 [] false).2 0
    (by decide)).1.mpr (by decide)

/-- C4. For status `'residence'` or `'self-use'` and every
`totalCount ≥ 0`, `tenantCount ≥ 0` and `existingRows`,
`autoSetUsageStatus` returns exactly `max(totalCount, tenantCount, 1)`
rows, each labelled `'거주 중'` (residential) or `'직접사용'`
(commercial), each with empty deposit and rent, and the output does not
depend on `existingRows` at all. -/
theorem autoSetUsageStatus_residence_selfUse_characterization
    (totalCount tenantCount : Int) (existingRows : List LeaseRow)
    (status : OccupancyStatus) (isCommercial : Bool)
    (hst : status = .residence ∨ status = .selfUse)
    (htc : 0 ≤ totalCount) (htn : 0 ≤ tenantCount) :
    (((autoSetUsageStatus totalCount tenantCount existingRows status
        isCommercial).length : Int)
      = max totalCount (max tenantCount 1)) ∧
    (∀ (i : Nat) (hi : i < (autoSetUsageStatus totalCount tenantCount
        existingRows status isCommercial).length),
      ((autoSetUsageStatus totalCount tenantCount existingRows status
          isCommercial).get ⟨i, hi⟩).usage
        = (if isCommercial then "직접사용" else "거주 중") ∧
      ((autoSetUsageStatus totalCount tenantCount existingRows status
          isCommercial).get ⟨i, hi⟩).deposit = "" ∧
      ((autoSetUsageStatus totalCount tenantCount existingRows status
          isCommercial).get ⟨i, hi⟩).rent = "") ∧
    (∀ rows2 : List LeaseRow,
      autoSetUsageStatus totalCount tenantCount existingRows status
          isCommercial
        = autoSetUsageStatus totalCount tenantCount rows2 status
            isCommercial) := by
  rcases hst with h | h <;> subst h
  · refine ⟨?_, ?_, fun rows2 => rfl⟩
    · show ((((List.range (max totalCount (max tenantCount 1)).toNat).map
          (fun (i : Nat) =>
            ({ id := toString (i + 1)
               usage := if isCommercial then "직접사용" else "거주 중"
               deposit := ""
               rent := ""
               businessRegistration := if isCommercial then some ""
                 else none } : LeaseRow))).length : Nat) : Int)
        = max totalCount (max tenantCount 1)
      rw [List.length_map, List.length_range,
        Int.toNat_of_nonneg (max_max_one_nonneg _ _)]
    · intro i hi
      have key : (autoSetUsageStatus totalCount tenantCount existingRows
          .residence isCommercial).get ⟨i, hi⟩
          = ({ id := toString (i + 1)
               usage := if isCommercial then "직접사용" else "거주 중"
               deposit := ""
               rent := ""
               businessRegistration := if isCommercial then some ""
                 else none } : LeaseRow) :=
        get_map_range _ hi
      rw [key]
      exact ⟨rfl, rfl, rfl⟩
  · refine ⟨?_, ?_, fun rows2 => rfl⟩
    · show ((((List.range (max totalCount (max tenantCount 1)).toNat).map
          (fun (i : Nat) =>
            ({ id := toString (i + 1)
               usage := if isCommercial then "직접사용" else "거주 중"
               deposit := ""
               rent := ""
               businessRegistration := if isCommercial then some ""
                 else none } : LeaseRow))).length : Nat) : Int)
        = max totalCount (max tenantCount 1)
      rw [List.length_map, List.length_range,
        Int.toNat_of_nonneg (max_max_one_nonneg _ _)]
    · intro i hi
      have key : (autoSetUsageStatus totalCount tenantCount existingRows
          .selfUse isCommercial).get ⟨i, hi⟩
          = ({ id := toString (i + 1)
               usage := if isCommercial then "직접사용" else "거주 중"
               deposit := ""
               rent := ""
               businessRegistration := if isCommercial then some ""
                 else none } : LeaseRow) :=
        get_map_range _ hi
      rw [key]
      exact ⟨rfl, rfl, rfl⟩

/-- Witness for C4 at `autoSetUsageStatus(3, 0, [], 'residence', false)`,
index 0: the first row is labelled `'거주 중'`. -/
theorem autoSetUsageStatus_residence_selfUse_characterization_witness :
    ((autoSetUsageStatus 3 0 [] .residence false).get
        ⟨0, by decide⟩).usage = "거주 중" :=
  ((autoSetUsageStatus_residence_selfUse_characterization 3 0 []
      .residence false (Or.inl rfl) (by decide) (by decide)).2.1 0
    (by decide)).1

/-- C10. For status `'rent'`, the output of `autoSetUsageStatus` is
independent of the `isCommercial` flag, and no row of the result carries
a `businessRegistration` field. -/
theorem rent_branch_independent_of_isCommercial
    (totalCount tenantCount : Int) (existingRows : List LeaseRow) :
    (autoSetUsageStatus totalCount tenantCount existingRows .rent true
      = autoSetUsageStatus totalCount tenantCount existingRows .rent
          false) ∧
    ∀ (isCommercial : Bool) (i : Nat)
      (hi : i < (autoSetUsageStatus totalCount tenantCount existingRows
        .rent isCommercial).length),
      ((autoSetUsageStatus totalCount tenantCount existingRows .rent
          isCommercial).get ⟨i, hi⟩).businessRegistration = none := by
  refine ⟨rfl, fun isCommercial i hi => ?_⟩
  have key : (autoSetUsageStatus totalCount tenantCount existingRows .rent
      isCommercial).get ⟨i, hi⟩
      = (let existingRow := existingRows[i]?
         let usage := if (i : Int) < tenantCount then "임대" else "공실"
         ({ id := toString (i + 1)
            usage := usage
            deposit := if usage = "임대" then
                ((existingRow.map LeaseRow.deposit).getD "") else ""
            rent := if usage = "임대" then
                ((existingRow.map LeaseRow.rent).getD "") else ""
            businessRegistration := none } : LeaseRow)) :=
    get_map_range _ hi
  rw [key]

/-- Witness for C10 at index 0 of `autoSetUsageStatus(2, 1, r, 'rent',
true)` with a commercial existing row: no `businessRegistration` is
produced. -/
theorem rent_branch_independent_of_isCommercial_witness :
    ((autoSetUsageStatus 2 1
        [{ id := "1", usage := "임대", deposit := "100", rent := "50",
           businessRegistration := some "Y" }] .rent true).get
      ⟨0, by decide⟩).businessRegistration = none :=
  (rent_branch_independent_of_isCommercial 2 1
    [{ id := "1", usage := "임대", deposit := "100", rent := "50",
       businessRegistration := some "Y" }]).2 true 0 (by decide)

/-- Counterexample to C2 as stated: at
`autoSetUsageStatus(2, 1, [], 'both', true)` the (single) rent-block row
is NOT exactly the row the `'rent'` case would generate — the commercial
`'both'` branch adds a `businessRegistration` field to its rent-block
rows, which the `'rent'` branch never produces. -/
theorem both_rent_block_not_exactly_rent_cex :
    (autoSetUsageStatus 2 1 [] .both true).take 1
      ≠ (autoSetUsageStatus 2 1 [] .rent true).take 1 := by
  decide

/-- C2, amended: For status `'both'`, `autoSetUsageStatus` generates
`max(totalCount - 1, tenantCount)` rent-block rows with the same
positional deposit/rent carry-over for rented rows and clearing for
vacant rows as the `'rent'` case — and, when the section is commercial,
each rent-block row (vacant ones included) additionally carries a
`businessRegistration` field copied positionally from `existingRows[i]`
(empty when that element or its field is absent), which the `'rent'`
case never produces; for a residential section the rent block is exactly
the prefix of the `'rent'` output. It then appends exactly one final row
labelled `'거주'` (residential) or `'직접사용'` (commercial) with empty
deposit and rent, carrying an empty `businessRegistration` field when
commercial, whose id is the string of `rentRowCount + 1`. -/
theorem autoSetUsageStatus_both_characterization
    (totalCount tenantCount : Int) (existingRows : List LeaseRow)
    (isCommercial : Bool) (htn : 0 ≤ tenantCount) :
    (((autoSetUsageStatus totalCount tenantCount existingRows .both
        isCommercial).length : Int)
      = max (totalCount - 1) tenantCount + 1) ∧
    (∀ i : Nat, i < (max (totalCount - 1) tenantCount).toNat →
      (autoSetUsageStatus totalCount tenantCount existingRows .both
          isCommercial)[i]?
        = some { id := toString (i + 1)
                 usage := if (i : Int) < tenantCount then "임대" else "공실"
                 deposit := if (i : Int) < tenantCount then
                     ((existingRows[i]?.map LeaseRow.deposit).getD "")
                   else ""
                 rent := if (i : Int) < tenantCount then
                     ((existingRows[i]?.map LeaseRow.rent).getD "")
                   else ""
                 businessRegistration := if isCommercial then
                     some ((existingRows[i]?.bind
                       LeaseRow.businessRegistration).getD "")
                   else none }) ∧
    ((autoSetUsageStatus totalCount tenantCount existingRows .both
        isCommercial)[(max (totalCount - 1) tenantCount).toNat]?
      = some { id := toString (max (totalCount - 1) tenantCount + 1)
               usage := if isCommercial then "직접사용" else "거주"
               deposit := ""
               rent := ""
               businessRegistration := if isCommercial then some ""
                 else none }) ∧
    (isCommercial = false →
      (autoSetUsageStatus totalCount tenantCount existingRows .both
          false).take (max (totalCount - 1) tenantCount).toNat
        = (autoSetUsageStatus totalCount tenantCount existingRows .rent
            false).take (max (totalCount - 1) tenantCount).toNat) := by
  have h0 : (0 : Int) ≤ max (totalCount - 1) tenantCount :=
    le_trans htn (le_max_right _ _)
  have e1 : autoSetUsageStatus totalCount tenantCount existingRows .both
      isCommercial
      = ((List.range (max (totalCount - 1) tenantCount).toNat).map
          (fun (i : Nat) =>
            let existingRow := existingRows[i]?
            let usage := if (i : Int) < tenantCount then "임대" else "공실"
            ({ id := toString (i + 1)
               usage := usage
               deposit := if usage = "임대" then
                   ((existingRow.map LeaseRow.deposit).getD "") else ""
               rent := if usage = "임대" then
                   ((existingRow.map LeaseRow.rent).getD "") else ""
               businessRegistration := if isCommercial then
                   some ((existingRow.bind
                     LeaseRow.businessRegistration).getD "")
                 else none } : LeaseRow)))
        ++ [{ id := toString (max (totalCount - 1) tenantCount + 1)
              usage := if isCommercial then "직접사용" else "거주"
              deposit := ""
              rent := ""
              businessRegistration := if isCommercial then some ""
                else none }] := rfl
  refine ⟨?_, ?_, ?_, ?_⟩
  · rw [e1]
    simp [Int.toNat_of_nonneg h0]
  · intro i hilt
    rw [e1]
    rw [List.getElem?_append_left (by simpa using hilt)]
    simp only [List.getElem?_map, List.getElem?_range, hilt, if_pos]
    by_cases hp : (i : Int) < tenantCount <;> simp [hp]
  · rw [e1]
    rw [List.getElem?_append_right (by simp)]
    simp
  · intro hc
    subst hc
    have e2 : autoSetUsageStatus totalCount tenantCount existingRows .rent
        false
        = (List.range (max totalCount (max tenantCount 1)).toNat).map
            (fun (i : Nat) =>
              let existingRow := existingRows[i]?
              let usage := if (i : Int) < tenantCount then "임대" else "공실"
              ({ id := toString (i + 1)
                 usage := usage
                 deposit := if usage = "임대" then
                     ((existingRow.map LeaseRow.deposit).getD "") else ""
                 rent := if usage = "임대" then
                     ((existingRow.map LeaseRow.rent).getD "") else ""
                 businessRegistration := none } : LeaseRow)) := rfl
    have hle : (max (totalCount - 1) tenantCount).toNat
        ≤ (max totalCount (max tenantCount 1)).toNat := by
      apply Int.toNat_le_toNat
      apply max_le
      · exact le_trans (sub_le_self _ zero_le_one) (le_max_left _ _)
      · exact le_trans (le_max_left tenantCount 1) (le_max_right _ _)
    rw [e1, e2]
    rw [List.take_append_of_le_length (by simp)]
    rw [List.take_of_length_le (by simp)]
    rw [← List.map_take, List.take_range, Nat.min_eq_left hle]
    simp

/-- Witness for C2 at `autoSetUsageStatus(3, 1, [], 'both', false)`: the
final row sits at index 2 with id `"3"`, label `'거주'` and empty
financial fields. -/
theorem autoSetUsageStatus_both_characterization_witness :
    (autoSetUsageStatus 3 1 [] .both false)[2]?
      = some { id := "3", usage := "거주", deposit := "", rent := "",
               businessRegistration := none } := by
  have h := (autoSetUsageStatus_both_characterization 3 1 [] false
    (by decide)).2.2.1
  simpa using h

theorem id_of_map_range {n i : Nat} (g : Nat → LeaseRow)
    (hg : ∀ j, (g j).id = toString (j + 1))
    (hi : i < ((List.range n).map g).length) :
    (((List.range n).map g).get ⟨i, hi⟩).id = toString (i + 1) := by
  rw [get_map_range _ hi]
  exact hg i

/-- C8. For every input with non-negative counts (the domain of the
row-derivation contract) and every status — all four are handled by a
generation branch — the list returned by `autoSetUsageStatus` has, at
every 0-based position `i`, a row whose id is the decimal string of
`i + 1`: ids are regenerated as 1-based positional strings on every
call. -/
theorem generated_ids_positional
    (totalCount tenantCount : Int) (existingRows : List LeaseRow)
    (status : OccupancyStatus) (isCommercial : Bool)
    (htc : 0 ≤ totalCount) (htn : 0 ≤ tenantCount) :
    ∀ (i : Nat) (hi : i < (autoSetUsageStatus totalCount tenantCount
        existingRows status isCommercial).length),
      ((autoSetUsageStatus totalCount tenantCount existingRows status
          isCommercial).get ⟨i, hi⟩).id = toString (i + 1) := by
  cases status
  case residence =>
    intro i hi
    exact id_of_map_range _ (fun j => rfl) hi
  case selfUse =>
    intro i hi
    exact id_of_map_range _ (fun j => rfl) hi
  case rent =>
    intro i hi
    exact id_of_map_range _ (fun j => rfl) hi
  case both =>
    have h0 : (0 : Int) ≤ max (totalCount - 1) tenantCount :=
      le_trans htn (le_max_right _ _)
    have e1 : autoSetUsageStatus totalCount tenantCount existingRows .both
        isCommercial
        = ((List.range (max (totalCount - 1) tenantCount).toNat).map
            (fun (i : Nat) =>
              let existingRow := existingRows[i]?
              let usage := if (i : Int) < tenantCount then "임대" else "공실"
              ({ id := toString (i + 1)
                 usage := usage
                 deposit := if usage = "임대" then
                     ((existingRow.map LeaseRow.deposit).getD "") else ""
                 rent := if usage = "임대" then
                     ((existingRow.map LeaseRow.rent).getD "") else ""
                 businessRegistration := if isCommercial then
                     some ((existingRow.bind
                       LeaseRow.businessRegistration).getD "")
                   else none } : LeaseRow)))
          ++ [{ id := toString (max (totalCount - 1) tenantCount + 1)
                usage := if isCommercial then "직접사용" else "거주"
                deposit := ""
                rent := ""
                businessRegistration := if isCommercial then some ""
                  else none }] := rfl
    intro i hi
    have hsome : (autoSetUsageStatus totalCount tenantCount existingRows
        .both isCommercial)[i]?
        = some ((autoSetUsageStatus totalCount tenantCount existingRows
            .both isCommercial).get ⟨i, hi⟩) := by
      rw [List.get_eq_getElem]
      exact List.getElem?_eq_getElem hi
    have hlen : (autoSetUsageStatus totalCount tenantCount existingRows
        .both isCommercial).length
        = (max (totalCount - 1) tenantCount).toNat + 1 := by
      rw [e1]; simp
    rcases Nat.lt_or_ge i (max (totalCount - 1) tenantCount).toNat
      with hlt | hge
    · have hid : ((autoSetUsageStatus totalCount tenantCount existingRows
          .both isCommercial)[i]?.map LeaseRow.id)
          = some (toString (i + 1)) := by
        rw [e1, List.getElem?_append_left (by simpa using hlt)]
        simp [List.getElem?_map, List.getElem?_range, hlt]
      rw [hsome] at hid
      simp only [Option.map_some'] at hid
      exact Option.some.inj hid
    · have hieq : i = (max (totalCount - 1) tenantCount).toNat := by
        rw [hlen] at hi
        omega
      subst hieq
      have hid : ((autoSetUsageStatus totalCount tenantCount existingRows
          .both isCommercial)[(max (totalCount - 1)
            tenantCount).toNat]?.map LeaseRow.id)
          = some (toString (max (totalCount - 1) tenantCount + 1)) := by
        rw [e1, List.getElem?_append_right (by simp)]
        simp
      have hcast : toString (max (totalCount - 1) tenantCount + 1)
          = toString ((max (totalCount - 1) tenantCount).toNat + 1) := by
        have hc2 : max (totalCount - 1) tenantCount + 1
            = (((max (totalCount - 1) tenantCount).toNat + 1 : Nat) : Int)
            := by
          omega
        rw [hc2]
        rfl
      rw [hsome] at hid
      simp only [Option.map_some'] at hid
      rw [Option.some.inj hid, hcast]

/-- Witness for C8 at `autoSetUsageStatus(3, 1, [], 'both', true)`,
index 1: the row id is `"2"`. -/
theorem generated_ids_positional_witness :
    ((autoSetUsageStatus 3 1 [] .both true).get ⟨1, by decide⟩).id
      = "2" :=
  generated_ids_positional 3 1 [] .both true (by decide) (by decide) 1
    (by decide)

/-! ## Lemmas about the state container -/

theorem InfoRecord.get_set_self (r : InfoRecord) (st : OccupancyStatus)
    (v : SectionInfo) : (r.set st v).get st = some v := by
  cases st <;> rfl

theorem InfoRecord.get_set_ne (r : InfoRecord) {st st' : OccupancyStatus}
    (h : st' ≠ st) (v : SectionInfo) :
    (r.set st v).get st' = r.get st' := by
  cases st <;> cases st' <;> first | rfl | exact absurd rfl h

/-- Every mutator replaces at most the addressed status's entry: all
other entries of the record are returned unchanged. -/
theorem mutation_frame {s s' : ContainerState} {m : Mutation}
    {st : OccupancyStatus} (hm : applyMutation s m = some s')
    (hne : st ≠ addressedStatus s m) :
    s'.info.get st = s.info.get st := by
  cases m <;>
    simp only [applyMutation, handleStatusChange, handleTotalCountChange,
      handleTotalCountBlur, handleTenantCountChange, handleTenantCountBlur,
      handleRowUsageChange, handleRowDepositChange, handleRowRentChange,
      handleRowBusinessRegistrationChange, Option.map_eq_some'] at hm <;>
    obtain ⟨ci, hget, rfl⟩ := hm
  case changeStatus newStatus =>
    exact InfoRecord.get_set_ne _ hne _
  case changeTotalCount v =>
    exact InfoRecord.get_set_ne _ hne _
  case commitTotalCount =>
    split <;> [exact InfoRecord.get_set_ne _ hne _; rfl]
  case changeTenantCount v =>
    exact InfoRecord.get_set_ne _ hne _
  case commitTenantCount =>
    split <;> [exact InfoRecord.get_set_ne _ hne _; rfl]
  case changeRowUsage rowId newUsage =>
    exact InfoRecord.get_set_ne _ hne _
  case changeRowDeposit rowId v =>
    exact InfoRecord.get_set_ne _ hne _
  case changeRowRent rowId v =>
    exact InfoRecord.get_set_ne _ hne _
  case changeRowBusinessRegistration rowId v =>
    exact InfoRecord.get_set_ne _ hne _

/-- Counterexample to C3 as stated: the round trip
`changeStatus(rent)`, `changeRowDeposit("1","500")` (mutating under
`rent`), `changeStatus(both)`, `changeStatus(rent)` does NOT store for
`rent` exactly the mutated `SectionInfo` — the final `changeStatus(rent)`
re-derives the rows, and the deposit set on the vacant row is cleared. -/
theorem status_roundtrip_not_exact_cex :
    ((((handleStatusChange (initContainer .residential .residence)
          .rent).bind
        (fun s => handleRowDepositChange s "1" "500")).bind
        (fun s => handleStatusChange s .both)).bind
        (fun s => handleStatusChange s .rent)).map
      (fun s => s.info.get .rent)
    ≠ (((handleStatusChange (initContainer .residential .residence)
          .rent).bind
        (fun s => handleRowDepositChange s "1" "500")).map
      (fun s => s.info.get .rent)) := by
  decide

/-- C3, amended: For every container state and every mutator
invocation, only the `SectionInfo` entry belonging to the addressed
status (the active status, or the target status for `changeStatus`) is
replaced; every other status's `SectionInfo` is unchanged. Consequently,
after `changeStatus(A)`, mutating under `A` to reach state `s`, then
`changeStatus(B)` and `changeStatus(A)` with `A ≠ B`, the counts stored
for `A` are exactly the mutated ones — but the rows stored for `A` are
re-derived by the final `changeStatus(A)` from the mutated entry (not
the mutated row list itself, whose labels and vacant-row financial data
the re-derivation may rewrite). -/
theorem mutators_frame_and_status_roundtrip :
    (∀ (s s' : ContainerState) (m : Mutation) (st : OccupancyStatus),
      applyMutation s m = some s' → st ≠ addressedStatus s m →
      s'.info.get st = s.info.get st) ∧
    (∀ (s s2 s3 : ContainerState) (A B : OccupancyStatus)
      (si : SectionInfo),
      A ≠ B → handleStatusChange s B = some s2 →
      handleStatusChange s2 A = some s3 → s.info.get A = some si →
      s3.info.get A = some
        { si with
          leaseRows := autoSetUsageStatus
            (max (jsNumberOr0 si.totalCount) 1)
            (jsNumberOr0 si.tenantCount) si.leaseRows A
            (s.type = .commercial) }) := by
  constructor
  · intro s s' m st hm hne
    exact mutation_frame hm hne
  · intro s s2 s3 A B si hAB hB hA hsi
    simp only [handleStatusChange, Option.map_eq_some'] at hB hA
    obtain ⟨ciB, hgetB, rfl⟩ := hB
    obtain ⟨ciA, hgetA, rfl⟩ := hA
    have hframe : (InfoRecord.set s.info B
        { ciB with
          leaseRows := autoSetUsageStatus
            (max (jsNumberOr0 ciB.totalCount) 1)
            (jsNumberOr0 ciB.tenantCount) ciB.leaseRows B
            (s.type = .commercial) }).get A = s.info.get A :=
      InfoRecord.get_set_ne _ hAB _
    rw [hframe, hsi] at hgetA
    obtain rfl := Option.some.inj hgetA
    exact InfoRecord.get_set_self _ _ _

/-- Witness for C3: a concrete frame instance — `changeTotalCount("2")`
on a fresh residential container does not touch the `both` entry. -/
theorem mutators_frame_and_status_roundtrip_witness :
    (applyMutation (initContainer .residential .residence)
        (.changeTotalCount "2")).map (fun s => s.info.get .both)
      = some ((initContainer .residential .residence).info.get .both)
    := by
  cases hrun : applyMutation (initContainer .residential .residence)
      (.changeTotalCount "2") with
  | none => exact absurd hrun (by decide)
  | some s2 =>
    rw [Option.map_some']
    exact congrArg some (mutators_frame_and_status_roundtrip.1 _ s2 _
      .both hrun (by decide))

theorem invariant_init (type : SectionType)
    (initialStatus : OccupancyStatus)
    (h : initialStatus ∈ applicableStatuses type) :
    ContainerInvariant type (initContainer type initialStatus) := by
  refine ⟨rfl, h, ?_⟩
  cases type <;> intro st <;> cases st <;> simp [initContainer,
    createInitialInfoState, InfoRecord.get, applicableStatuses]

theorem invariant_set {type : SectionType} {r : InfoRecord}
    {X : OccupancyStatus} (v : SectionInfo)
    (hX : X ∈ applicableStatuses type)
    (hr : ∀ st : OccupancyStatus,
      (r.get st).isSome = true ↔ st ∈ applicableStatuses type) :
    ∀ st : OccupancyStatus,
      ((r.set X v).get st).isSome = true ↔
        st ∈ applicableStatuses type := by
  intro st
  by_cases h : st = X
  · subst h
    simp [InfoRecord.get_set_self, hX]
  · rw [InfoRecord.get_set_ne _ h]
    exact hr st

theorem invariant_preserved {type : SectionType}
    {s s' : ContainerState} {m : Mutation}
    (hinv : ContainerInvariant type s)
    (hm : applyMutation s m = some s') :
    ContainerInvariant type s' := by
  have htype := hinv.1
  have hstatus := hinv.2.1
  have hrec := hinv.2.2
  cases m <;>
    simp only [applyMutation, handleStatusChange, handleTotalCountChange,
      handleTotalCountBlur, handleTenantCountChange, handleTenantCountBlur,
      handleRowUsageChange, handleRowDepositChange, handleRowRentChange,
      handleRowBusinessRegistrationChange, Option.map_eq_some'] at hm <;>
    obtain ⟨ci, hget, rfl⟩ := hm
  case changeStatus newStatus =>
    have hmem : newStatus ∈ applicableStatuses type :=
      (hrec newStatus).mp (by rw [hget]; rfl)
    exact ⟨htype, hmem, invariant_set _ hmem hrec⟩
  case changeTotalCount v =>
    exact ⟨htype, hstatus, invariant_set _ hstatus hrec⟩
  case commitTotalCount =>
    split
    · exact ⟨htype, hstatus, invariant_set _ hstatus hrec⟩
    · exact ⟨htype, hstatus, hrec⟩
  case changeTenantCount v =>
    exact ⟨htype, hstatus, invariant_set _ hstatus hrec⟩
  case commitTenantCount =>
    split
    · exact ⟨htype, hstatus, invariant_set _ hstatus hrec⟩
    · exact ⟨htype, hstatus, hrec⟩
  case changeRowUsage rowId newUsage =>
    exact ⟨htype, hstatus, invariant_set _ hstatus hrec⟩
  case changeRowDeposit rowId v =>
    exact ⟨htype, hstatus, invariant_set _ hstatus hrec⟩
  case changeRowRent rowId v =>
    exact ⟨htype, hstatus, invariant_set _ hstatus hrec⟩
  case changeRowBusinessRegistration rowId v =>
    exact ⟨htype, hstatus, invariant_set _ hstatus hrec⟩

theorem reachable_invariant {type : SectionType} {s : ContainerState}
    (h : Reachable type s) : ContainerInvariant type s := by
  induction h with
  | init initialStatus hmem => exact invariant_init type initialStatus hmem
  | step m hs hstep ih => exact invariant_preserved ih hstep

/-- Counterexample to C5 as stated: `changeStatus('self-use')` on a
freshly constructed residential container reads `info['self-use']`,
which has no entry, and the subsequent property access throws a
`TypeError` — so not *every* status input is safe. -/
theorem changeStatus_inapplicable_throws_cex :
    handleStatusChange (initContainer .residential .residence) .selfUse
      = none := by
  rfl

/-- C5, amended: Every operation of the container, applied to any
reachable state, terminates normally and returns a well-formed state for
every string input — invalid numeric input is normalized rather than
rejected — and `changeStatus` does so for every target status that is
applicable to the container's category (for the one inapplicable fourth
status the record has no entry and the handler throws). -/
theorem reachable_ops_never_throw (type : SectionType)
    (s : ContainerState) (hr : Reachable type s) :
    (∀ v : String, (handleTotalCountChange s v).isSome = true) ∧
    ((handleTotalCountBlur s).isSome = true) ∧
    (∀ v : String, (handleTenantCountChange s v).isSome = true) ∧
    ((handleTenantCountBlur s).isSome = true) ∧
    (∀ rowId newUsage : String,
      (handleRowUsageChange s rowId newUsage).isSome = true) ∧
    (∀ rowId v : String,
      (handleRowDepositChange s rowId v).isSome = true) ∧
    (∀ rowId v : String,
      (handleRowRentChange s rowId v).isSome = true) ∧
    (∀ rowId v : String,
      (handleRowBusinessRegistrationChange s rowId v).isSome = true) ∧
    (∀ newStatus ∈ applicableStatuses type,
      (handleStatusChange s newStatus).isSome = true) := by
  have hinv := reachable_invariant hr
  have hactive : (s.info.get s.status).isSome = true :=
    (hinv.2.2 s.status).mpr hinv.2.1
  obtain ⟨ci, hci⟩ := Option.isSome_iff_exists.mp hactive
  refine ⟨?_, ?_, ?_, ?_, ?_, ?_, ?_, ?_, ?_⟩
  · intro v
    simp [handleTotalCountChange, hci]
  · simp [handleTotalCountBlur, hci]
  · intro v
    simp [handleTenantCountChange, hci]
  · simp [handleTenantCountBlur, hci]
  · intro rowId newUsage
    simp [handleRowUsageChange, hci]
  · intro rowId v
    simp [handleRowDepositChange, hci]
  · intro rowId v
    simp [handleRowRentChange, hci]
  · intro rowId v
    simp [handleRowBusinessRegistrationChange, hci]
  · intro newStatus hmem
    obtain ⟨cj, hcj⟩ :=
      Option.isSome_iff_exists.mp ((hinv.2.2 newStatus).mpr hmem)
    simp [handleStatusChange, hcj]

/-- Witness for C5 on a fresh commercial container: the blur handler
succeeds. -/
theorem reachable_ops_never_throw_witness :
    (handleTotalCountBlur (initContainer .commercial .selfUse)).isSome
      = true :=
  (reachable_ops_never_throw .commercial _
    (Reachable.init .selfUse (by decide))).2.1

/-- C6. `changeRowUsage(rowId, newLabel)` updates the label of
exactly the rows of the active status's list whose id equals `rowId`; if
the new label is not the rented label `'임대'`, their deposit and rent
become the empty string, otherwise they are preserved (and the
`businessRegistration` field is untouched); every other row, and the
list's length and order, are unchanged — no regeneration of the full
list. -/
theorem handleRowUsageChange_characterization
    (s : ContainerState) (si : SectionInfo) (rowId newUsage : String)
    (hsome : s.info.get s.status = some si) :
    ∃ s', handleRowUsageChange s rowId newUsage = some s' ∧
      ∃ si', s'.info.get s.status = some si' ∧
        si'.totalCount = si.totalCount ∧
        si'.tenantCount = si.tenantCount ∧
        si'.leaseRows.length = si.leaseRows.length ∧
        ∀ (i : Nat) (hi : i < si.leaseRows.length)
          (hi2 : i < si'.leaseRows.length),
          ((si.leaseRows.get ⟨i, hi⟩).id ≠ rowId →
            si'.leaseRows.get ⟨i, hi2⟩ = si.leaseRows.get ⟨i, hi⟩) ∧
          ((si.leaseRows.get ⟨i, hi⟩).id = rowId →
            si'.leaseRows.get ⟨i, hi2⟩ =
              { id := (si.leaseRows.get ⟨i, hi⟩).id
                usage := newUsage
                deposit := if newUsage = "임대" then
                    (si.leaseRows.get ⟨i, hi⟩).deposit else ""
                rent := if newUsage = "임대" then
                    (si.leaseRows.get ⟨i, hi⟩).rent else ""
                businessRegistration :=
                  (si.leaseRows.get ⟨i, hi⟩).businessRegistration }) := by
  have hrun : handleRowUsageChange s rowId newUsage
      = some { s with
          info := s.info.set s.status
            { si with
              leaseRows := si.leaseRows.map fun r =>
                if r.id = rowId then
                  { r with
                    usage := newUsage
                    deposit := if newUsage = "임대" then r.deposit else ""
                    rent := if newUsage = "임대" then r.rent else "" }
                else r } } := by
    simp only [handleRowUsageChange, hsome, Option.map_some']
  refine ⟨_, hrun, _, InfoRecord.get_set_self _ _ _, rfl, rfl,
    by simp, ?_⟩
  intro i hi hi2
  have hgm : (si.leaseRows.map fun r =>
      if r.id = rowId then
        { r with
          usage := newUsage
          deposit := if newUsage = "임대" then r.deposit else ""
          rent := if newUsage = "임대" then r.rent else "" }
      else r).get ⟨i, hi2⟩
      = (fun r =>
          if r.id = rowId then
            { r with
              usage := newUsage
              deposit := if newUsage = "임대" then r.deposit else ""
              rent := if newUsage = "임대" then r.rent else "" }
          else r) (si.leaseRows.get ⟨i, hi⟩) := by
    simp [List.get_eq_getElem, List.getElem_map]
  constructor
  · intro hne
    rw [hgm]
    exact if_neg hne
  · intro heq
    rw [hgm]
    exact if_pos heq

/-- Witness for C6 on a fresh residential container in the `rent`
status: relabelling row `"1"` succeeds. -/
theorem handleRowUsageChange_characterization_witness :
    (handleRowUsageChange (initContainer .residential .rent) "1"
      "공실").isSome = true := by
  obtain ⟨s', hs', _⟩ := handleRowUsageChange_characterization
    (initContainer .residential .rent) (defaultSectionInfo .rent) "1"
    "공실" rfl
  rw [hs']
  rfl

/-- Counterexample to C9 as stated: on a residential container whose
row `"1"` has no `businessRegistration` field, the handler is NOT a
no-op — it adds the field (`{ ...r, businessRegistration: value }` is
unconditional), so the stored entry changes. -/
theorem businessRegistration_not_noop_cex :
    (handleRowBusinessRegistrationChange
        (initContainer .residential .residence) "1" "Y").map
      (fun s => s.info.get .residence)
    ≠ some ((initContainer .residential .residence).info.get .residence)
    := by
  decide

/-- C9, amended: `changeRowBusinessRegistration(rowId, value)` sets
the `businessRegistration` field of the rows of the active status's list
whose id equals `rowId` unconditionally — on residential as well as
commercial sections, creating the field when it was absent (there is no
no-op case); all other fields of the matched rows and all other rows are
untouched, as are the list's length and order. -/
theorem handleRowBusinessRegistrationChange_characterization
    (s : ContainerState) (si : SectionInfo) (rowId value : String)
    (hsome : s.info.get s.status = some si) :
    ∃ s', handleRowBusinessRegistrationChange s rowId value = some s' ∧
      ∃ si', s'.info.get s.status = some si' ∧
        si'.totalCount = si.totalCount ∧
        si'.tenantCount = si.tenantCount ∧
        si'.leaseRows.length = si.leaseRows.length ∧
        ∀ (i : Nat) (hi : i < si.leaseRows.length)
          (hi2 : i < si'.leaseRows.length),
          ((si.leaseRows.get ⟨i, hi⟩).id ≠ rowId →
            si'.leaseRows.get ⟨i, hi2⟩ = si.leaseRows.get ⟨i, hi⟩) ∧
          ((si.leaseRows.get ⟨i, hi⟩).id = rowId →
            si'.leaseRows.get ⟨i, hi2⟩ =
              { id := (si.leaseRows.get ⟨i, hi⟩).id
                usage := (si.leaseRows.get ⟨i, hi⟩).usage
                deposit := (si.leaseRows.get ⟨i, hi⟩).deposit
                rent := (si.leaseRows.get ⟨i, hi⟩).rent
                businessRegistration := some value }) := by
  have hrun : handleRowBusinessRegistrationChange s rowId value
      = some { s with
          info := s.info.set s.status
            { si with
              leaseRows := si.leaseRows.map fun r =>
                if r.id = rowId then
                  { r with businessRegistration := some value }
                else r } } := by
    simp only [handleRowBusinessRegistrationChange, hsome,
      Option.map_some']
  refine ⟨_, hrun, _, InfoRecord.get_set_self _ _ _, rfl, rfl,
    by simp, ?_⟩
  intro i hi hi2
  have hgm : (si.leaseRows.map fun r =>
      if r.id = rowId then
        { r with businessRegistration := some value }
      else r).get ⟨i, hi2⟩
      = (fun r =>
          if r.id = rowId then
            { r with businessRegistration := some value }
          else r) (si.leaseRows.get ⟨i, hi⟩) := by
    simp [List.get_eq_getElem, List.getElem_map]
  constructor
  · intro hne
    rw [hgm]
    exact if_neg hne
  · intro heq
    rw [hgm]
    exact if_pos heq

/-- Witness for C9 on a fresh residential container: the handler
succeeds on row `"1"`. -/
theorem handleRowBusinessRegistrationChange_characterization_witness :
    (handleRowBusinessRegistrationChange
      (initContainer .residential .residence) "1" "N").isSome = true := by
  obtain ⟨s', hs', _⟩ := handleRowBusinessRegistrationChange_characterization
    (initContainer .residential .residence)
    (defaultSectionInfo .residence) "1" "N" rfl
  rw [hs']
  rfl

/-- C7. `commitTotalCount` (the on-blur handler) sets the active
status's stored total-count string to `"1"` exactly when the stored
string is empty or its numeric value is less than 1, and in every case
leaves the active status's `tenantCount` and `leaseRows` unchanged; in
particular `changeTotalCount("0")` followed by `commitTotalCount()`
yields stored total count `"1"`. (Stored count strings are digit-only —
every store passes through the digit filter — which the numeric-value
hypothesis reflects.) -/
theorem handleTotalCountBlur_characterization
    (s : ContainerState) (si : SectionInfo)
    (hsome : s.info.get s.status = some si)
    (hdig : si.totalCount.toList.all Char.isDigit = true) :
    (∃ s', handleTotalCountBlur s = some s' ∧
      ∃ si', s'.info.get s.status = some si' ∧
        si'.totalCount = (if si.totalCount.isEmpty = true ∨
            digitsToNat si.totalCount < 1 then "1" else si.totalCount) ∧
        si'.tenantCount = si.tenantCount ∧
        si'.leaseRows = si.leaseRows) ∧
    (∀ s1 s2 : ContainerState,
      handleTotalCountChange s "0" = some s1 →
      handleTotalCountBlur s1 = some s2 →
      (s2.info.get s.status).map SectionInfo.totalCount = some "1") := by
  have hnum : jsNumber si.totalCount
      = some ((digitsToNat si.totalCount : Nat) : Int) := by
    unfold jsNumber
    rw [if_pos hdig]
  have hcond_iff : (si.totalCount.isEmpty ||
      ((jsNumber si.totalCount).elim false fun n => decide (n < 1)))
        = true
      ↔ (si.totalCount.isEmpty = true ∨
          digitsToNat si.totalCount < 1) := by
    rw [hnum]
    simp [Option.elim, Nat.cast_lt_one]
  constructor
  · by_cases hc : si.totalCount.isEmpty = true ∨
        digitsToNat si.totalCount < 1
    · have hb : (si.totalCount.isEmpty ||
          ((jsNumber si.totalCount).elim false fun n => decide (n < 1)))
            = true := hcond_iff.mpr hc
      have hrun : handleTotalCountBlur s
          = some { s with
              info := s.info.set s.status
                { si with totalCount := "1" } } := by
        unfold handleTotalCountBlur
        rw [hsome, Option.map_some', if_pos hb]
      refine ⟨_, hrun, _, InfoRecord.get_set_self _ _ _, ?_, rfl, rfl⟩
      exact (if_pos hc).symm
    · have hb : ¬ ((si.totalCount.isEmpty ||
          ((jsNumber si.totalCount).elim false fun n => decide (n < 1)))
            = true) := fun h => hc (hcond_iff.mp h)
      have hrun : handleTotalCountBlur s = some s := by
        unfold handleTotalCountBlur
        rw [hsome, Option.map_some', if_neg hb]
      refine ⟨_, hrun, si, hsome, ?_, rfl, rfl⟩
      exact (if_neg hc).symm
  · intro s1 s2 h1 h2
    simp only [handleTotalCountChange, hsome, Option.map_some',
      Option.some.injEq] at h1
    subst h1
    simp only [handleTotalCountBlur, InfoRecord.get_set_self,
      Option.map_some', Option.some.injEq] at h2
    rw [if_pos (by decide)] at h2
    subst h2
    rw [InfoRecord.get_set_self]
    rfl

/-- Witness for C7: the blur handler succeeds on a fresh residential
container (whose stored total count `"1"` is digit-only). -/
theorem handleTotalCountBlur_characterization_witness :
    (handleTotalCountBlur (initContainer .residential .residence)).isSome
      = true := by
  obtain ⟨s', hs', _⟩ := (handleTotalCountBlur_characterization
    (initContainer .residential .residence)
    (defaultSectionInfo .residence) rfl (by decide)).1
  rw [hs']
  rfl
